import Mathlib

/-!
Shallow embedding of the per-user session and transfer-confirmation logic of
the bonk-bot-tele repository (src/index.ts, src/src/handlers/wallet.ts,
src/src/types.ts, src/src/services/solana.ts, src/src/utils/helpers.ts).

The three shared maps of the program — `USERS : Record<string, Keypair>`,
`PENDING_DELETIONS : Record<string, NodeJS.Timeout>` and
`PENDING_TRANSACTIONS : Record<string, {recipientAddress, amount, timestamp}>`
— are modelled as functions `UserId → Option _`.  External collaborators
(the Telegram transport, `parseFloat`, the `PublicKey` constructor, and the
`SolanaService` RPC calls) are passed in as oracle parameters: a pure value or
function describing the outcome the collaborator produced during the handler
run, with `Except` modelling a thrown exception.  JS decimal amounts are
modelled as `ℚ`; none of the verified properties depend on binary-float
rounding.
-/

namespace BonkBot

/-- Telegram user identity, as the string `ctx.from.id.toString()` /
`ctx.match?.[1]` used as the key of every map (src/src/types.ts). -/
abbrev UserId := String

/-- Model of `@solana/web3.js` `Keypair` as stored in `USERS`:
`publicKey.toBase58()` and the `secretKey` byte array. -/
structure Keypair where
  publicKey : String
  secretKey : List ℕ
deriving DecidableEq

/-- `UserStorage = Record<string, Keypair>` (src/src/types.ts line 8). -/
abbrev UserStorage := UserId → Option Keypair

/-- One entry of `PendingTransactions` (src/src/types.ts lines 12-19):
`{ recipientAddress, amount, timestamp }`. -/
structure TransferProposal where
  recipientAddress : String
  amount : ℚ
  timestamp : ℤ
deriving DecidableEq

/-- `PendingTransactions = Record<string, TransferProposal>`. -/
abbrev PendingTransactions := UserId → Option TransferProposal

/-- `PendingDeletions = Record<string, NodeJS.Timeout>` (src/src/types.ts
line 10); the `NodeJS.Timeout` handle is modelled by the id of the message
the scheduled task will delete. -/
abbrev PendingDeletions := UserId → Option ℕ

/-- `BalanceInfo` (src/src/types.ts lines 31-34): SOL balance and lamports
as returned by `SolanaService.getBalance`. -/
structure BalanceInfo where
  balance : ℚ
  lamports : ℤ
deriving DecidableEq

/-- `m[k] = v` on a `Record`-style map. -/
def setEntry {V : Type} (m : UserId → Option V) (k : UserId) (v : V) :
    UserId → Option V :=
  fun q => if q = k then some v else m q

/-- `delete m[k]` on a `Record`-style map. -/
def removeEntry {V : Type} (m : UserId → Option V) (k : UserId) :
    UserId → Option V :=
  fun q => if q = k then none else m q

/-- `validateUserId` (src/src/utils/helpers.ts lines 58-62): the id is a
string of positive length. -/
def validateUserId (userId : UserId) : Bool :=
  userId.length > 0

/-- User-visible outcome of the `bot.on('text')` transfer-preparation
handler (src/index.ts lines 325-396), one constructor per distinct reply. -/
inductive ProposeResult where
  /-- The handler returned without replying (no wallet, or the text does not
  split into exactly two non-empty parts). -/
  | noReply
  /-- Reply "Invalid format. Please use: address amount" (line 338). -/
  | invalidFormat
  /-- Reply "Invalid amount ..." — `isNaN(amount) || amount <= 0`
  (lines 343-345). -/
  | invalidAmount
  /-- Reply "Invalid recipient address ..." — `new PublicKey` threw
  an error whose message includes Invalid public key input
  (lines 385-389). -/
  | invalidAddress
  /-- Reply "You already have a pending transaction ..." (lines 351-353). -/
  | alreadyPending
  /-- Reply "Insufficient balance. You have {observed} SOL, but tried to
  send {amount} SOL." (lines 358-360). -/
  | insufficientBalance (observed : ℚ)
  /-- The confirmation prompt with Confirm/Cancel buttons was sent and the
  proposal stored (lines 362-383). -/
  | confirmPrompt (recipientAddress : String) (amount observed : ℚ)
  /-- Reply "Invalid transaction format ..." — the balance fetch threw and
  its message does not include Invalid public key input (lines 385-390). -/
  | prepFailed
deriving DecidableEq

/-- Body of the `bot.on('text')` handler from the point where the trimmed
text has split into exactly two parts (src/index.ts lines 334-391).
Oracles: `parseFloat amountStr` is `none` when JS `parseFloat` returns
`NaN`; `isValidPublicKey a = false` when `new PublicKey(a)` throws with
message Invalid public key input; `balanceFetch` is the outcome of
`solanaService.getBalance(senderKeypair.publicKey)`; `now` is
`Date.now()`.  Returns the reply and the updated `PENDING_TRANSACTIONS`. -/
def prepareSendSol (pt : PendingTransactions) (userId : UserId)
    (recipientAddress amountStr : String)
    (parseFloat : String → Option ℚ)
    (isValidPublicKey : String → Bool)
    (balanceFetch : Except Unit ℚ)
    (now : ℤ) : ProposeResult × PendingTransactions :=
  if recipientAddress = "" ∨ amountStr = "" then (.invalidFormat, pt)
  else
    match parseFloat amountStr with
    | none => (.invalidAmount, pt)
    | some amount =>
      if amount ≤ 0 then (.invalidAmount, pt)
      else if isValidPublicKey recipientAddress = false then
        (.invalidAddress, pt)
      else if (pt userId).isSome then (.alreadyPending, pt)
      else
        match balanceFetch with
        | .error _ => (.prepFailed, pt)
        | .ok balance =>
          if balance < amount then (.insufficientBalance balance, pt)
          else (.confirmPrompt recipientAddress amount balance,
                setEntry pt userId
                  { recipientAddress := recipientAddress,
                    amount := amount, timestamp := now })

/-- The full `bot.on('text')` handler (src/index.ts lines 325-396): bails
out silently when the sender id is missing or has no wallet, splits the
trimmed text on a single space, and runs `prepareSendSol` when there are
exactly two parts. -/
def handleTextMessage (users : UserStorage) (pt : PendingTransactions)
    (userId : Option UserId) (text : String)
    (parseFloat : String → Option ℚ)
    (isValidPublicKey : String → Bool)
    (balanceFetch : Except Unit ℚ)
    (now : ℤ) : ProposeResult × PendingTransactions :=
  match userId with
  | none => (.noReply, pt)
  | some u =>
    if (users u).isNone then (.noReply, pt)
    else
      match (text.trim.splitOn " ") with
      | [a, b] =>
        prepareSendSol pt u a b parseFloat isValidPublicKey balanceFetch now
      | _ => (.noReply, pt)

/-- User-visible outcome of `handleConfirmSendSol`
(src/src/handlers/wallet.ts lines 321-369). -/
inductive ConfirmResult where
  /-- `validateUserId` failed: the handler returned without editing. -/
  | noReply
  /-- "Transaction expired or invalid." — no wallet or no pending proposal
  (lines 328-330). -/
  | expiredOrInvalid
  /-- "Insufficient balance. You have {observed} SOL." (lines 341-344). -/
  | insufficientBalance (observed : ℚ)
  /-- "SOL Sent Successfully!" carrying the transaction signature
  (lines 346-356). -/
  | sent (signature : String)
  /-- "Invalid recipient address." — an error whose message includes
  Invalid public key input (lines 358-363). -/
  | invalidRecipient
  /-- "Failed to send SOL. Please try again." — any other thrown error,
  including a failed balance re-fetch (lines 358-364). -/
  | sendFailed
deriving DecidableEq

/-- `handleConfirmSendSol` (src/src/handlers/wallet.ts lines 321-369).
Oracles as in `prepareSendSol`; `submit` is the outcome of
`solanaService.sendSOL`, `.ok` carrying the signature.  Every path of the
inner try/catch after the entry check deletes `pendingTransactions[userId]`
(lines 342, 348, 359) before replying. -/
def handleConfirmSendSol (users : UserStorage) (pt : PendingTransactions)
    (userId : UserId)
    (isValidPublicKey : String → Bool)
    (balanceFetch : Except Unit ℚ)
    (submit : Except Unit String) : ConfirmResult × PendingTransactions :=
  if validateUserId userId = false then (.noReply, pt)
  else
    match users userId, pt userId with
    | some _, some p =>
      if isValidPublicKey p.recipientAddress = false then
        (.invalidRecipient, removeEntry pt userId)
      else
        match balanceFetch with
        | .error _ => (.sendFailed, removeEntry pt userId)
        | .ok balance =>
          if balance < p.amount then
            (.insufficientBalance balance, removeEntry pt userId)
          else
            match submit with
            | .ok signature => (.sent signature, removeEntry pt userId)
            | .error _ => (.sendFailed, removeEntry pt userId)
    | _, _ => (.expiredOrInvalid, pt)

/-- User-visible outcome of `handleCancelSendSol`
(src/src/handlers/wallet.ts lines 371-386).  The handler edits the same
"Transaction Cancelled" text whether or not a proposal existed; `existed`
records the `if (pendingTransactions[userId])` branch condition, i.e.
whether a proposal was present and deleted. -/
inductive CancelResult where
  | noReply
  | cancelled (existed : Bool)
deriving DecidableEq

/-- `handleCancelSendSol` (src/src/handlers/wallet.ts lines 371-386):
deletes the pending proposal when one exists, then edits the message; it
has no failing branch. -/
def handleCancelSendSol (pt : PendingTransactions) (userId : UserId) :
    CancelResult × PendingTransactions :=
  if validateUserId userId = false then (.noReply, pt)
  else if (pt userId).isSome then (.cancelled true, removeEntry pt userId)
  else (.cancelled false, pt)

/-- User-visible outcome of `handleExportPrivateKey`
(src/src/handlers/wallet.ts lines 115-166). -/
inductive ExportResult where
  /-- `validateUserId` failed: the handler returned without replying. -/
  | noReply
  /-- "No wallet found! Please generate a wallet first." (lines 122-124). -/
  | noWallet
  /-- "You already have a private key message that will be deleted soon.
  Please wait before requesting another one." (lines 126-133). -/
  | alreadyPendingDeletion
  /-- The private-key message was sent as message `messageId` and a 30 s
  deletion timer was stored in `pendingDeletions[userId]`
  (lines 135-162). -/
  | revealed (messageId : ℕ)
deriving DecidableEq

/-- A single-shot deletion task scheduled with `setTimeout`
(src/src/handlers/wallet.ts lines 151-160): after 30 s it deletes message
`messageId` belonging to `userId`. -/
structure ScheduledDeletion where
  userId : UserId
  messageId : ℕ
deriving DecidableEq

/-- `handleExportPrivateKey` (src/src/handlers/wallet.ts lines 115-166).
`freshMessageId` is the id Telegram assigns to the private-key message if
one is sent.  Returns the reply, the updated `PENDING_DELETIONS`, and the
list of deletion timers the call scheduled (empty or a singleton). -/
def handleExportPrivateKey (users : UserStorage) (pd : PendingDeletions)
    (userId : UserId) (freshMessageId : ℕ) :
    ExportResult × PendingDeletions × List ScheduledDeletion :=
  if validateUserId userId = false then (.noReply, pd, [])
  else if (users userId).isNone then (.noWallet, pd, [])
  else if (pd userId).isSome then (.alreadyPendingDeletion, pd, [])
  else (.revealed freshMessageId, setEntry pd userId freshMessageId,
        [{ userId := userId, messageId := freshMessageId }])

/-- How the body of a scheduled deletion task finished
(src/src/handlers/wallet.ts lines 151-160): the task itself always
completes — a throwing `ctx.deleteMessage` is caught, logged and
swallowed. -/
inductive RetractionOutcome where
  /-- `ctx.deleteMessage` succeeded and the success was logged
  (lines 153-154). -/
  | deleted
  /-- `ctx.deleteMessage` threw; the catch block logged the error and
  swallowed it (lines 155-156). -/
  | failureLogged
deriving DecidableEq

/-- Body of the `setTimeout` callback scheduled by `handleExportPrivateKey`
(src/src/handlers/wallet.ts lines 151-160): try `ctx.deleteMessage`, catch
and log any error, and in the `finally` block delete
`pendingDeletions[userId]`.  `deleteMessage` is the oracle for the
transport call; the return type is a plain pair, so no exception escapes
the task in the model, matching the catch-all in the source. -/
def pendingDeletionTask (pd : PendingDeletions) (userId : UserId)
    (deleteMessage : Except Unit Unit) :
    RetractionOutcome × PendingDeletions :=
  match deleteMessage with
  | .ok _ => (.deleted, removeEntry pd userId)
  | .error _ => (.failureLogged, removeEntry pd userId)

/-- User-visible outcome of `handleGenerateWallet`
(src/src/handlers/wallet.ts lines 45-89). -/
inductive GenerateResult where
  /-- `validateUserId` failed: `answerCbQuery("User ID not found!")`. -/
  | noUserId
  /-- "Wallet already exists!" (lines 52-54). -/
  | alreadyExists
  /-- The wallet message (lines 64-85): address, current balance, and the
  12-word recovery phrase.  This is the only result that carries the
  mnemonic. -/
  | generated (publicKey mnemonic : String) (balance : ℚ) (lamports : ℤ)
  /-- `handleError` path (lines 86-88): `answerCbQuery` with
  "Something went wrong!" — reached when the post-store balance fetch
  threw. -/
  | somethingWentWrong
deriving DecidableEq

/-- `handleGenerateWallet` (src/src/handlers/wallet.ts lines 45-89).
Oracles: `mnemonic` is the fresh `bip39.generateMnemonic(128)` output of
this call, `keypairFromSeed` the deterministic
`Keypair.fromSeed(mnemonicToSeed _)` derivation, and `balanceFetch` the
outcome of `solanaService.getBalance` for the new key.  The source stores
`users[userId] = keypair` (line 61) before awaiting the balance fetch
(line 62), so the map update survives a fetch failure. -/
def handleGenerateWallet (users : UserStorage) (userId : UserId)
    (mnemonic : String) (keypairFromSeed : String → Keypair)
    (balanceFetch : Except Unit BalanceInfo) :
    GenerateResult × UserStorage :=
  if validateUserId userId = false then (.noUserId, users)
  else if (users userId).isSome then (.alreadyExists, users)
  else
    let keypair := keypairFromSeed mnemonic
    let users1 := setEntry users userId keypair
    match balanceFetch with
    | .error _ => (.somethingWentWrong, users1)
    | .ok b => (.generated keypair.publicKey mnemonic b.balance b.lamports,
                users1)

/-!
Interleaving model of two concurrent runs of the transfer-preparation
handler for the same user.  In the source the pending check
(src/index.ts line 351) and the store (line 362) are separated by
`await solanaService.getBalance(...)` (line 356) with no lock, so the
JS event loop may run another task between the two.  Each task is split at
that suspension point into two atomic phases; the pure validations that
precede the pending check (amount parse, amount > 0, `new PublicKey`) are
assumed already passed for both tasks.
-/

/-- The fixed inputs of one transfer-preparation task: the parsed request
and what its balance fetch will return. -/
structure ProposeAttempt where
  recipientAddress : String
  amount : ℚ
  observedBalance : ℚ
  now : ℤ
deriving DecidableEq

/-- Progress of one transfer-preparation task through its two atomic
phases. -/
inductive TaskPhase where
  /-- About to execute the pending check of src/index.ts line 351. -/
  | pendingCheck
  /-- Passed the pending check and suspended at the `await` of line 356;
  the next step resumes at line 358 with the fetched balance. -/
  | balanceArrived
  /-- The task replied and finished. -/
  | finished (r : ProposeResult)
deriving DecidableEq

/-- Shared map plus the progress of the two tasks. -/
structure TwoTaskState where
  pt : PendingTransactions
  phase1 : TaskPhase
  phase2 : TaskPhase

/-- One atomic phase of a transfer-preparation task for user `u`:
the pending-check phase (line 351, ending at the `await` of line 356) or
the resume phase (lines 358-383: balance check, then store and prompt). -/
def stepAttempt (u : UserId) (a : ProposeAttempt)
    (pt : PendingTransactions) (ph : TaskPhase) :
    TaskPhase × PendingTransactions :=
  match ph with
  | .pendingCheck =>
    if (pt u).isSome then (.finished .alreadyPending, pt)
    else (.balanceArrived, pt)
  | .balanceArrived =>
    if a.observedBalance < a.amount then
      (.finished (.insufficientBalance a.observedBalance), pt)
    else
      (.finished (.confirmPrompt a.recipientAddress a.amount
         a.observedBalance),
       setEntry pt u
         { recipientAddress := a.recipientAddress, amount := a.amount,
           timestamp := a.now })
  | .finished r => (.finished r, pt)

/-- Run one scheduler step: `true` advances task 1, `false` task 2. -/
def stepTwo (u : UserId) (a1 a2 : ProposeAttempt) (s : TwoTaskState)
    (who : Bool) : TwoTaskState :=
  if who then
    let r := stepAttempt u a1 s.pt s.phase1
    { pt := r.2, phase1 := r.1, phase2 := s.phase2 }
  else
    let r := stepAttempt u a2 s.pt s.phase2
    { pt := r.2, phase1 := s.phase1, phase2 := r.1 }

/-- Run the two tasks under a given schedule (list of scheduler picks). -/
def runSchedule (u : UserId) (a1 a2 : ProposeAttempt)
    (sched : List Bool) (s : TwoTaskState) : TwoTaskState :=
  sched.foldl (stepTwo u a1 a2) s

/-- C1: while a proposal is pending for a user, any further run of the
transfer-preparation handler leaves `PENDING_TRANSACTIONS` unchanged — the
existing proposal's recipient, amount and timestamp are untouched and no
second proposal is stored — and a well-formed request (non-empty parts,
parseable positive amount, valid recipient address) is rejected with the
already-pending reply. -/
theorem C1_propose_while_pending
    (pt : PendingTransactions) (u : UserId) (a s : String)
    (pf : String → Option ℚ) (vk : String → Bool)
    (bf : Except Unit ℚ) (now : ℤ) (p : TransferProposal)
    (hp : pt u = some p) :
    (prepareSendSol pt u a s pf vk bf now).2 = pt ∧
    (a ≠ "" → s ≠ "" → ∀ q, pf s = some q → 0 < q → vk a = true →
      (prepareSendSol pt u a s pf vk bf now).1 = .alreadyPending) := by
  have hps : (pt u).isSome = true := by rw [hp]; rfl
  constructor
  · unfold prepareSendSol
    split
    · rfl
    · cases hpf : pf s with
      | none => rfl
      | some q =>
        simp only [hps]
        split
        · rfl
        · split
          · rfl
          · rfl
  · intro ha hs q hq hq0 hv
    unfold prepareSendSol
    rw [if_neg (by simp [ha, hs]), hq]
    simp [not_le.mpr hq0, hv, hps]

/-- C1 witness: user "7" has a pending proposal for 1 SOL to "ADDR1"; a
second well-formed request for 2 SOL to "ADDR2" leaves the map unchanged
and is answered with the already-pending reply. -/
theorem C1_propose_while_pending_witness :
    ((fun k => if k = "7" then
        some { recipientAddress := "ADDR1", amount := 1, timestamp := 0 }
      else none : PendingTransactions) "7"
        = some { recipientAddress := "ADDR1", amount := 1,
                 timestamp := 0 }) ∧
    ((prepareSendSol
        (fun k => if k = "7" then
          some { recipientAddress := "ADDR1", amount := 1, timestamp := 0 }
         else none) "7" "ADDR2" "2" (fun _ => some 2)
        (fun _ => true) (.ok 5) 9).2
      = (fun k => if k = "7" then
          some { recipientAddress := "ADDR1", amount := 1, timestamp := 0 }
         else none) ∧
     ((prepareSendSol
        (fun k => if k = "7" then
          some { recipientAddress := "ADDR1", amount := 1, timestamp := 0 }
         else none) "7" "ADDR2" "2" (fun _ => some 2)
        (fun _ => true) (.ok 5) 9).1 = .alreadyPending)) := by
  refine ⟨rfl, ?_, ?_⟩
  · exact (C1_propose_while_pending
      (fun k => if k = "7" then
        some { recipientAddress := "ADDR1", amount := 1, timestamp := 0 }
       else none) "7" "ADDR2" "2" (fun _ => some 2) (fun _ => true)
      (.ok 5) 9 { recipientAddress := "ADDR1", amount := 1, timestamp := 0 }
      rfl).1
  · exact (C1_propose_while_pending
      (fun k => if k = "7" then
        some { recipientAddress := "ADDR1", amount := 1, timestamp := 0 }
       else none) "7" "ADDR2" "2" (fun _ => some 2) (fun _ => true)
      (.ok 5) 9 { recipientAddress := "ADDR1", amount := 1, timestamp := 0 }
      rfl).2 (by decide) (by decide) 2 rfl (by norm_num) rfl

/-- C7: a well-formed transfer request whose amount strictly exceeds the
freshly observed balance is answered with the insufficient-balance reply
carrying the observed balance, and no proposal is stored: the returned map
is the input map, whose entry for the user stays absent. -/
theorem C7_propose_insufficient_balance
    (pt : PendingTransactions) (u : UserId) (a s : String)
    (pf : String → Option ℚ) (vk : String → Bool) (now : ℤ) (q b : ℚ)
    (ha : a ≠ "") (hs : s ≠ "") (hq : pf s = some q) (hq0 : 0 < q)
    (hv : vk a = true) (hpend : pt u = none) (hb : b < q) :
    prepareSendSol pt u a s pf vk (.ok b) now
      = (.insufficientBalance b, pt) ∧
    (prepareSendSol pt u a s pf vk (.ok b) now).2 u = none := by
  have h : prepareSendSol pt u a s pf vk (.ok b) now
      = (.insufficientBalance b, pt) := by
    unfold prepareSendSol
    rw [if_neg (by simp [ha, hs]), hq]
    simp [not_le.mpr hq0, hv, hpend, hb]
  exact ⟨h, by rw [h]; exact hpend⟩

/-- C7 witness: with balance 2 and requested amount 3 the reply is
insufficient-balance carrying 2 and the map entry stays absent. -/
theorem C7_propose_insufficient_balance_witness :
    prepareSendSol (fun _ => none) "7" "ADDR1" "3" (fun _ => some 3)
        (fun _ => true) (.ok 2) 0
      = (.insufficientBalance 2, fun _ => none) ∧
    (prepareSendSol (fun _ => none) "7" "ADDR1" "3" (fun _ => some 3)
        (fun _ => true) (.ok 2) 0).2 "7" = none :=
  C7_propose_insufficient_balance (fun _ => none) "7" "ADDR1" "3"
    (fun _ => some 3) (fun _ => true) 0 3 2 (by decide) (by decide) rfl
    (by norm_num) rfl rfl (by norm_num)

/-- C2: confirm re-validates the balance; when the confirm-time balance is
strictly below the proposal's amount, the reply is insufficient-balance
carrying the observed balance and the proposal is deleted, so a subsequent
confirm for the same user — with any oracle outcomes — reports that the
transaction is expired or invalid (the no-pending-proposal reply): the
failed proposal cannot be retried. -/
theorem C2_confirm_insufficient_balance
    (users : UserStorage) (pt : PendingTransactions) (u : UserId)
    (vk : String → Bool) (submit : Except Unit String)
    (p : TransferProposal) (b : ℚ)
    (hu : validateUserId u = true) (hw : (users u).isSome = true)
    (hp : pt u = some p) (hv : vk p.recipientAddress = true)
    (hb : b < p.amount) :
    handleConfirmSendSol users pt u vk (.ok b) submit
      = (.insufficientBalance b, removeEntry pt u) ∧
    ∀ vk2 bf2 submit2,
      handleConfirmSendSol users (removeEntry pt u) u vk2 bf2 submit2
        = (.expiredOrInvalid, removeEntry pt u) := by
  rcases Option.isSome_iff_exists.mp hw with ⟨kp, hkp⟩
  constructor
  · unfold handleConfirmSendSol
    rw [hu, hkp, hp]
    simp [hv, hb]
  · intro vk2 bf2 submit2
    have hrm : removeEntry pt u u = none := by simp [removeEntry]
    unfold handleConfirmSendSol
    rw [hu, hkp, hrm]
    rfl

/-- C2 witness: user "7" proposed sending 5 SOL; the confirm-time balance
is 2, so confirm deletes the proposal and reports insufficient balance 2,
and a second confirm reports expired-or-invalid. -/
theorem C2_confirm_insufficient_balance_witness :
    handleConfirmSendSol
        (fun k => if k = "7" then
          some { publicKey := "PK", secretKey := [1] } else none)
        (fun k => if k = "7" then
          some { recipientAddress := "ADDR1", amount := 5, timestamp := 0 }
         else none) "7" (fun _ => true) (.ok 2) (.ok "SIG")
      = (.insufficientBalance 2,
         removeEntry
           (fun k => if k = "7" then
             some { recipientAddress := "ADDR1", amount := 5, timestamp := 0 }
            else none) "7") ∧
    ∀ vk2 bf2 submit2,
      handleConfirmSendSol
          (fun k => if k = "7" then
            some { publicKey := "PK", secretKey := [1] } else none)
          (removeEntry
            (fun k => if k = "7" then
              some { recipientAddress := "ADDR1", amount := 5,
                     timestamp := 0 }
             else none) "7") "7" vk2 bf2 submit2
        = (.expiredOrInvalid,
           removeEntry
             (fun k => if k = "7" then
               some { recipientAddress := "ADDR1", amount := 5,
                      timestamp := 0 }
              else none) "7") :=
  C2_confirm_insufficient_balance
    (fun k => if k = "7" then
      some { publicKey := "PK", secretKey := [1] } else none)
    (fun k => if k = "7" then
      some { recipientAddress := "ADDR1", amount := 5, timestamp := 0 }
     else none) "7" (fun _ => true) (.ok "SIG")
    { recipientAddress := "ADDR1", amount := 5, timestamp := 0 } 2
    rfl rfl rfl rfl (by norm_num)

/-- C3: confirm with no pending proposal replies expired-or-invalid and
leaves the map untouched; with a pending proposal, a sufficient
confirm-time balance and a successful submission, confirm replies with the
transaction signature and deletes the proposal in the same step, so an
immediately subsequent confirm — with any oracle outcomes — replies
expired-or-invalid. -/
theorem C3_confirm_success_then_gone
    (users : UserStorage) (pt : PendingTransactions) (u : UserId)
    (hu : validateUserId u = true) :
    (∀ vk bf submit, pt u = none →
      handleConfirmSendSol users pt u vk bf submit
        = (.expiredOrInvalid, pt)) ∧
    (∀ p vk b signature, pt u = some p → (users u).isSome = true →
      vk p.recipientAddress = true → ¬ b < p.amount →
      handleConfirmSendSol users pt u vk (.ok b) (.ok signature)
        = (.sent signature, removeEntry pt u) ∧
      ∀ vk2 bf2 submit2,
        handleConfirmSendSol users (removeEntry pt u) u vk2 bf2 submit2
          = (.expiredOrInvalid, removeEntry pt u)) := by
  constructor
  · intro vk bf submit hnone
    unfold handleConfirmSendSol
    rw [hu, hnone]
    cases users u <;> rfl
  · intro p vk b signature hp hw hv hb
    rcases Option.isSome_iff_exists.mp hw with ⟨kp, hkp⟩
    constructor
    · unfold handleConfirmSendSol
      rw [hu, hkp, hp]
      simp [hv, hb]
    · intro vk2 bf2 submit2
      have hrm : removeEntry pt u u = none := by simp [removeEntry]
      unfold handleConfirmSendSol
      rw [hu, hkp, hrm]
      rfl

/-- C3 witness: user "7" with no proposal gets expired-or-invalid; after
proposing 1 SOL with balance 5, confirm returns signature "SIG" and
deletes the proposal, and a second confirm gets expired-or-invalid. -/
theorem C3_confirm_success_then_gone_witness :
    (handleConfirmSendSol
        (fun k => if k = "7" then
          some { publicKey := "PK", secretKey := [1] } else none)
        (fun _ => none) "7" (fun _ => true) (.ok 5) (.ok "SIG")
      = (.expiredOrInvalid, fun _ => none)) ∧
    (handleConfirmSendSol
        (fun k => if k = "7" then
          some { publicKey := "PK", secretKey := [1] } else none)
        (fun k => if k = "7" then
          some { recipientAddress := "ADDR1", amount := 1, timestamp := 0 }
         else none) "7" (fun _ => true) (.ok 5) (.ok "SIG")
      = (.sent "SIG",
         removeEntry
           (fun k => if k = "7" then
             some { recipientAddress := "ADDR1", amount := 1, timestamp := 0 }
            else none) "7")) ∧
    handleConfirmSendSol
        (fun k => if k = "7" then
          some { publicKey := "PK", secretKey := [1] } else none)
        (removeEntry
          (fun k => if k = "7" then
            some { recipientAddress := "ADDR1", amount := 1, timestamp := 0 }
           else none) "7") "7" (fun _ => true) (.ok 5) (.ok "SIG")
      = (.expiredOrInvalid,
         removeEntry
           (fun k => if k = "7" then
             some { recipientAddress := "ADDR1", amount := 1, timestamp := 0 }
            else none) "7") := by
  have h := C3_confirm_success_then_gone
    (fun k => if k = "7" then
      some { publicKey := "PK", secretKey := [1] } else none)
    (fun k => if k = "7" then
      some { recipientAddress := "ADDR1", amount := 1, timestamp := 0 }
     else none) "7" rfl
  have h0 := C3_confirm_success_then_gone
    (fun k => if k = "7" then
      some { publicKey := "PK", secretKey := [1] } else none)
    (fun _ => none) "7" rfl
  have h2 := h.2 { recipientAddress := "ADDR1", amount := 1, timestamp := 0 }
    (fun _ => true) 5 "SIG" rfl rfl rfl (by norm_num)
  exact ⟨h0.1 (fun _ => true) (.ok 5) (.ok "SIG") rfl, h2.1,
    h2.2 (fun _ => true) (.ok 5) (.ok "SIG")⟩

/-- C8: cancel never fails — for a valid user id it always produces the
cancelled reply; when a proposal exists it deletes it and the recorded
branch condition is true, and when none exists the branch condition is
false and the map is returned unchanged (no side effect). -/
theorem C8_cancel_removes_iff_present
    (pt : PendingTransactions) (u : UserId)
    (hu : validateUserId u = true) :
    (∀ p, pt u = some p →
      handleCancelSendSol pt u = (.cancelled true, removeEntry pt u) ∧
      (handleCancelSendSol pt u).2 u = none) ∧
    (pt u = none → handleCancelSendSol pt u = (.cancelled false, pt)) := by
  constructor
  · intro p hp
    have h : handleCancelSendSol pt u
        = (.cancelled true, removeEntry pt u) := by
      unfold handleCancelSendSol
      rw [hu, hp]
      rfl
    exact ⟨h, by rw [h]; simp [removeEntry]⟩
  · intro hnone
    unfold handleCancelSendSol
    rw [hu, hnone]
    rfl

/-- C8 witness: cancelling user "7"'s existing proposal deletes it and
records true; cancelling for user "8", who has no proposal, records false
and returns the map unchanged. -/
theorem C8_cancel_removes_iff_present_witness :
    (handleCancelSendSol
        (fun k => if k = "7" then
          some { recipientAddress := "ADDR1", amount := 1, timestamp := 0 }
         else none) "7"
      = (.cancelled true,
         removeEntry
           (fun k => if k = "7" then
             some { recipientAddress := "ADDR1", amount := 1, timestamp := 0 }
            else none) "7") ∧
     (handleCancelSendSol
        (fun k => if k = "7" then
          some { recipientAddress := "ADDR1", amount := 1, timestamp := 0 }
         else none) "7").2 "7" = none) ∧
    handleCancelSendSol
        (fun k => if k = "7" then
          some { recipientAddress := "ADDR1", amount := 1, timestamp := 0 }
         else none) "8"
      = (.cancelled false,
         fun k => if k = "7" then
           some { recipientAddress := "ADDR1", amount := 1, timestamp := 0 }
          else none) :=
  ⟨(C8_cancel_removes_iff_present
      (fun k => if k = "7" then
        some { recipientAddress := "ADDR1", amount := 1, timestamp := 0 }
       else none) "7" rfl).1
      { recipientAddress := "ADDR1", amount := 1, timestamp := 0 } rfl,
   (C8_cancel_removes_iff_present
      (fun k => if k = "7" then
        some { recipientAddress := "ADDR1", amount := 1, timestamp := 0 }
       else none) "8" rfl).2 rfl⟩

/-- C4: an export-private-key request by a wallet-owning user while a
deletion timer is already pending for that user is answered with the wait
reply, leaves `PENDING_DELETIONS` unchanged, schedules no new deletion
timer, and reveals no new secret message (the result is not the revealed
constructor, the only one that sends the private key). -/
theorem C4_export_while_pending
    (users : UserStorage) (pd : PendingDeletions) (u : UserId)
    (h mid : ℕ)
    (hu : validateUserId u = true) (hw : (users u).isSome = true)
    (hp : pd u = some h) :
    handleExportPrivateKey users pd u mid
      = (.alreadyPendingDeletion, pd, []) := by
  unfold handleExportPrivateKey
  rw [hu]
  simp [Option.isNone_iff_eq_none, Option.ne_none_iff_isSome, hw, hp]

/-- C4 witness: user "7" has a wallet and a pending deletion timer; a
second export request is answered with the wait reply, with the timer map
unchanged and no new timer scheduled. -/
theorem C4_export_while_pending_witness :
    handleExportPrivateKey
        (fun k => if k = "7" then
          some { publicKey := "PK", secretKey := [1] } else none)
        (fun k => if k = "7" then some 42 else none) "7" 99
      = (.alreadyPendingDeletion, (fun k => if k = "7" then some 42
          else none), []) :=
  C4_export_while_pending
    (fun k => if k = "7" then
      some { publicKey := "PK", secretKey := [1] } else none)
    (fun k => if k = "7" then some 42 else none) "7" 42 99 rfl rfl rfl

/-- C5: when a scheduled deletion task fires, the `PENDING_DELETIONS`
entry for its user is removed regardless of whether the message-deletion
side effect succeeded or threw, a throwing side effect ends in the
logged-and-swallowed outcome rather than propagating, and a successful one
in the deleted outcome — in both cases the task completes normally. -/
theorem C5_deletion_task_unconditional_cleanup
    (pd : PendingDeletions) (u : UserId) :
    (∀ r, (pendingDeletionTask pd u r).2 u = none) ∧
    (∀ e, (pendingDeletionTask pd u (.error e)).1 = .failureLogged) ∧
    (pendingDeletionTask pd u (.ok ())).1 = .deleted := by
  refine ⟨?_, ?_, rfl⟩
  · intro r
    cases r <;> simp [pendingDeletionTask, removeEntry]
  · intro e
    rfl

/-- C6: wallet provisioning is idempotent — after a first provisioning
call for a fresh user stores the keypair derived from that call's
mnemonic, a second call with arbitrary fresh entropy, derivation and
balance-fetch outcome replies that the wallet already exists and returns
the user map unchanged, so the stored record after the second call is the
record created by the first. -/
theorem C6_generate_wallet_idempotent
    (users : UserStorage) (u : UserId) (m m2 : String)
    (kf kf2 : String → Keypair)
    (bf bf2 : Except Unit BalanceInfo)
    (hu : validateUserId u = true) (hfresh : users u = none) :
    (handleGenerateWallet users u m kf bf).2 u = some (kf m) ∧
    handleGenerateWallet (handleGenerateWallet users u m kf bf).2 u
        m2 kf2 bf2
      = (.alreadyExists, (handleGenerateWallet users u m kf bf).2) := by
  have hsnd : (handleGenerateWallet users u m kf bf).2
      = setEntry users u (kf m) := by
    unfold handleGenerateWallet
    rw [hu]
    simp only [hfresh, Option.isSome_none, Bool.false_eq_true, if_false]
    cases bf <;> rfl
  have hset : setEntry users u (kf m) u = some (kf m) := by
    simp [setEntry]
  refine ⟨by rw [hsnd]; exact hset, ?_⟩
  rw [hsnd]
  unfold handleGenerateWallet
  rw [hu, hset]
  rfl

/-- C6 witness: provisioning fresh user "7" stores the keypair derived
from the first mnemonic, and a second provisioning call with a different
mnemonic, derivation and balance outcome reports that the wallet already
exists and leaves the map unchanged. -/
theorem C6_generate_wallet_idempotent_witness :
    (handleGenerateWallet (fun _ => none) "7" "mn one"
        (fun m => { publicKey := m, secretKey := [1] })
        (.ok { balance := 0, lamports := 0 })).2 "7"
      = some { publicKey := "mn one", secretKey := [1] } ∧
    handleGenerateWallet
        (handleGenerateWallet (fun _ => none) "7" "mn one"
          (fun m => { publicKey := m, secretKey := [1] })
          (.ok { balance := 0, lamports := 0 })).2 "7" "mn two"
        (fun m => { publicKey := m, secretKey := [2] }) (.error ())
      = (.alreadyExists,
         (handleGenerateWallet (fun _ => none) "7" "mn one"
           (fun m => { publicKey := m, secretKey := [1] })
           (.ok { balance := 0, lamports := 0 })).2) :=
  C6_generate_wallet_idempotent (fun _ => none) "7" "mn one" "mn two"
    (fun m => { publicKey := m, secretKey := [1] })
    (fun m => { publicKey := m, secretKey := [2] })
    (.ok { balance := 0, lamports := 0 }) (.error ()) rfl rfl

/-- C10: the source stores the generated keypair before awaiting the
balance fetch, so when a fresh user's provisioning hits a balance-fetch
failure the handler replies only the generic something-went-wrong message
(never the generated message that carries the recovery phrase), yet the
wallet stays stored, and any retry — with any oracle outcomes — reports
that the wallet already exists: provisioning is not atomic with its
success report. -/
theorem C10_generate_wallet_not_atomic
    (users : UserStorage) (u : UserId) (m : String)
    (kf : String → Keypair)
    (hu : validateUserId u = true) (hfresh : users u = none) :
    (handleGenerateWallet users u m kf (.error ())).1
      = .somethingWentWrong ∧
    (∀ pk mn b l, (handleGenerateWallet users u m kf (.error ())).1
      ≠ .generated pk mn b l) ∧
    (handleGenerateWallet users u m kf (.error ())).2 u = some (kf m) ∧
    ∀ m2 kf2 bf2,
      handleGenerateWallet
          (handleGenerateWallet users u m kf (.error ())).2 u m2 kf2 bf2
        = (.alreadyExists,
           (handleGenerateWallet users u m kf (.error ())).2) := by
  have hfst : (handleGenerateWallet users u m kf (.error ())).1
      = .somethingWentWrong := by
    unfold handleGenerateWallet
    rw [hu]
    simp [hfresh]
  have hsnd : (handleGenerateWallet users u m kf (.error ())).2
      = setEntry users u (kf m) := by
    unfold handleGenerateWallet
    rw [hu]
    simp [hfresh]
  have hset : setEntry users u (kf m) u = some (kf m) := by
    simp [setEntry]
  refine ⟨hfst, ?_, by rw [hsnd]; exact hset, ?_⟩
  · intro pk mn b l
    rw [hfst]
    intro hcontra
    exact GenerateResult.noConfusion hcontra
  · intro m2 kf2 bf2
    rw [hsnd]
    unfold handleGenerateWallet
    rw [hu, hset]
    rfl

/-- C10 witness: provisioning fresh user "7" with a failing balance fetch
replies the generic error, is not the recovery-phrase message, stores the
keypair, and a retry reports that the wallet already exists. -/
theorem C10_generate_wallet_not_atomic_witness :
    (handleGenerateWallet (fun _ => none) "7" "mn one"
        (fun m => { publicKey := m, secretKey := [1] }) (.error ())).1
      = .somethingWentWrong ∧
    (∀ pk mn b l,
      (handleGenerateWallet (fun _ => none) "7" "mn one"
        (fun m => { publicKey := m, secretKey := [1] }) (.error ())).1
        ≠ .generated pk mn b l) ∧
    (handleGenerateWallet (fun _ => none) "7" "mn one"
        (fun m => { publicKey := m, secretKey := [1] }) (.error ())).2 "7"
      = some { publicKey := "mn one", secretKey := [1] } ∧
    ∀ m2 kf2 bf2,
      handleGenerateWallet
          (handleGenerateWallet (fun _ => none) "7" "mn one"
            (fun m => { publicKey := m, secretKey := [1] })
            (.error ())).2 "7" m2 kf2 bf2
        = (.alreadyExists,
           (handleGenerateWallet (fun _ => none) "7" "mn one"
             (fun m => { publicKey := m, secretKey := [1] })
             (.error ())).2) :=
  C10_generate_wallet_not_atomic (fun _ => none) "7" "mn one"
    (fun m => { publicKey := m, secretKey := [1] }) rfl rfl

/-- C9 counterexample: two concurrent transfer-preparation tasks for user
"7", each requesting 1 SOL with observed balance 5, under the schedule
that runs both pending checks before either resumes from its balance
fetch.  Both tasks finish with the confirmation prompt — neither observes
the already-pending reply — and the stored proposal is the second task's,
silently overwriting the first: the claim that exactly one succeeds and
the other observes AlreadyPending is false, because the
check-pending-then-insert sequence spans the `await` of src/index.ts
line 356 without a lock. -/
theorem C9_concurrent_propose_counterexample :
    (runSchedule "7"
        { recipientAddress := "ADDR1", amount := 1, observedBalance := 5,
          now := 0 }
        { recipientAddress := "ADDR2", amount := 1, observedBalance := 5,
          now := 1 }
        [true, false, true, false]
        { pt := fun _ => none, phase1 := .pendingCheck,
          phase2 := .pendingCheck }).phase1
      = .finished (.confirmPrompt "ADDR1" 1 5) ∧
    (runSchedule "7"
        { recipientAddress := "ADDR1", amount := 1, observedBalance := 5,
          now := 0 }
        { recipientAddress := "ADDR2", amount := 1, observedBalance := 5,
          now := 1 }
        [true, false, true, false]
        { pt := fun _ => none, phase1 := .pendingCheck,
          phase2 := .pendingCheck }).phase2
      = .finished (.confirmPrompt "ADDR2" 1 5) ∧
    (runSchedule "7"
        { recipientAddress := "ADDR1", amount := 1, observedBalance := 5,
          now := 0 }
        { recipientAddress := "ADDR2", amount := 1, observedBalance := 5,
          now := 1 }
        [true, false, true, false]
        { pt := fun _ => none, phase1 := .pendingCheck,
          phase2 := .pendingCheck }).pt "7"
      = some { recipientAddress := "ADDR2", amount := 1, timestamp := 1 } := by
  refine ⟨?_, ?_, ?_⟩ <;>
    simp [runSchedule, List.foldl, stepTwo, stepAttempt, setEntry]

/-- C9 amended: exactly-one-succeeds holds only when the two tasks do not
interleave — if one task runs to completion before the other's pending
check, the first finishes with the confirmation prompt and the second
observes the already-pending reply; but under the interleaving in which
both pending checks run before either task resumes from its balance
fetch, both tasks finish with the confirmation prompt and the second
task's insert silently overwrites the first's proposal (a lost update),
because the pending check and the insert are not atomic. -/
theorem C9_concurrent_propose_amended
    (u : UserId) (a1 a2 : ProposeAttempt) (pt0 : PendingTransactions)
    (h0 : pt0 u = none)
    (h1 : ¬ a1.observedBalance < a1.amount)
    (h2 : ¬ a2.observedBalance < a2.amount) :
    ((runSchedule u a1 a2 [true, true, false]
        { pt := pt0, phase1 := .pendingCheck,
          phase2 := .pendingCheck }).phase1
      = .finished (.confirmPrompt a1.recipientAddress a1.amount
          a1.observedBalance) ∧
     (runSchedule u a1 a2 [true, true, false]
        { pt := pt0, phase1 := .pendingCheck,
          phase2 := .pendingCheck }).phase2
      = .finished .alreadyPending ∧
     (runSchedule u a1 a2 [true, true, false]
        { pt := pt0, phase1 := .pendingCheck,
          phase2 := .pendingCheck }).pt u
      = some { recipientAddress := a1.recipientAddress,
               amount := a1.amount, timestamp := a1.now }) ∧
    ((runSchedule u a1 a2 [true, false, true, false]
        { pt := pt0, phase1 := .pendingCheck,
          phase2 := .pendingCheck }).phase1
      = .finished (.confirmPrompt a1.recipientAddress a1.amount
          a1.observedBalance) ∧
     (runSchedule u a1 a2 [true, false, true, false]
        { pt := pt0, phase1 := .pendingCheck,
          phase2 := .pendingCheck }).phase2
      = .finished (.confirmPrompt a2.recipientAddress a2.amount
          a2.observedBalance) ∧
     (runSchedule u a1 a2 [true, false, true, false]
        { pt := pt0, phase1 := .pendingCheck,
          phase2 := .pendingCheck }).pt u
      = some { recipientAddress := a2.recipientAddress,
               amount := a2.amount, timestamp := a2.now }) := by
  refine ⟨⟨?_, ?_, ?_⟩, ⟨?_, ?_, ?_⟩⟩ <;>
    simp [runSchedule, List.foldl, stepTwo, stepAttempt, setEntry, h0,
      h1, h2]

/-- C9 amended witness: for user "7", task 1 sending 1 SOL to "ADDR1" and
task 2 sending 1 SOL to "ADDR2", both with observed balance 5 against an
empty map: sequentially the second task observes already-pending, while
interleaved both succeed and task 2's proposal overwrites task 1's. -/
theorem C9_concurrent_propose_amended_witness :
    ((runSchedule "7"
        { recipientAddress := "ADDR1", amount := 1, observedBalance := 5,
          now := 0 }
        { recipientAddress := "ADDR2", amount := 1, observedBalance := 5,
          now := 1 }
        [true, true, false]
        { pt := fun _ => none, phase1 := .pendingCheck,
          phase2 := .pendingCheck }).phase1
      = .finished (.confirmPrompt "ADDR1" 1 5) ∧
     (runSchedule "7"
        { recipientAddress := "ADDR1", amount := 1, observedBalance := 5,
          now := 0 }
        { recipientAddress := "ADDR2", amount := 1, observedBalance := 5,
          now := 1 }
        [true, true, false]
        { pt := fun _ => none, phase1 := .pendingCheck,
          phase2 := .pendingCheck }).phase2
      = .finished .alreadyPending ∧
     (runSchedule "7"
        { recipientAddress := "ADDR1", amount := 1, observedBalance := 5,
          now := 0 }
        { recipientAddress := "ADDR2", amount := 1, observedBalance := 5,
          now := 1 }
        [true, true, false]
        { pt := fun _ => none, phase1 := .pendingCheck,
          phase2 := .pendingCheck }).pt "7"
      = some { recipientAddress := "ADDR1", amount := 1,
               timestamp := 0 }) ∧
    ((runSchedule "7"
        { recipientAddress := "ADDR1", amount := 1, observedBalance := 5,
          now := 0 }
        { recipientAddress := "ADDR2", amount := 1, observedBalance := 5,
          now := 1 }
        [true, false, true, false]
        { pt := fun _ => none, phase1 := .pendingCheck,
          phase2 := .pendingCheck }).phase1
      = .finished (.confirmPrompt "ADDR1" 1 5) ∧
     (runSchedule "7"
        { recipientAddress := "ADDR1", amount := 1, observedBalance := 5,
          now := 0 }
        { recipientAddress := "ADDR2", amount := 1, observedBalance := 5,
          now := 1 }
        [true, false, true, false]
        { pt := fun _ => none, phase1 := .pendingCheck,
          phase2 := .pendingCheck }).phase2
      = .finished (.confirmPrompt "ADDR2" 1 5) ∧
     (runSchedule "7"
        { recipientAddress := "ADDR1", amount := 1, observedBalance := 5,
          now := 0 }
        { recipientAddress := "ADDR2", amount := 1, observedBalance := 5,
          now := 1 }
        [true, false, true, false]
        { pt := fun _ => none, phase1 := .pendingCheck,
          phase2 := .pendingCheck }).pt "7"
      = some { recipientAddress := "ADDR2", amount := 1,
               timestamp := 1 }) :=
  C9_concurrent_propose_amended "7"
    { recipientAddress := "ADDR1", amount := 1, observedBalance := 5,
      now := 0 }
    { recipientAddress := "ADDR2", amount := 1, observedBalance := 5,
      now := 1 }
    (fun _ => none) rfl (by norm_num) (by norm_num)

end BonkBot
